import Mathlib

/-!
Verification of the Live2D Cubism avatar component
(src/cubism/Live2DCubismAvatarComponent.{h,cpp}).

The component is embedded shallowly:

* `ComponentState` mirrors the three `UPROPERTY` fields of
  `ULive2DCubismAvatarComponent` (Live2DModel, RenderTarget, DynamicMaterial),
  each an engine-object pointer modelled as an `Option` of a placeholder type
  (the C++ only ever stores `NewObject<UObject>()`, which carries no data).
* Float parameters are modelled as `ℚ`: the C++ performs no floating-point
  arithmetic at all, it only returns the literal constants 0.5f and 0.0f.
* `UE_LOG` output is modelled explicitly: every member function returns its
  output log alongside the new state, so that claims about warnings and
  error reports can be stated.  Logging statements that are commented out
  in the source produce no log entries.
* The file-system interaction of `LoadLive2DModel` (`FPaths::FileExists`,
  `FFileHelper::LoadFileToArray`) is modelled by a `FileSystem` record
  giving the outcome of those two calls.
-/

/-- The placeholder object created by `NewObject<UObject>()` at
Live2DCubismAvatarComponent.cpp:49.  It carries no data. -/
inductive UObjectPlaceholder
  | mk
deriving DecidableEq, Repr

/-- Placeholder for the `UTexture2D* RenderTarget` field (never assigned in the
source). -/
inductive TexturePlaceholder
  | mk
deriving DecidableEq, Repr

/-- Placeholder for the `UMaterialInstanceDynamic* DynamicMaterial` field (never
assigned in the source). -/
inductive MaterialPlaceholder
  | mk
deriving DecidableEq, Repr

/-- Verbosity levels of `UE_LOG` used (or mentioned) by the source. -/
inductive LogVerbosity
  | Log
  | Error
  | Verbose
  | Warning
deriving DecidableEq, Repr

/-- One `UE_LOG` line: a verbosity and the formatted message. -/
structure LogEntry where
  verbosity : LogVerbosity
  message : String
deriving DecidableEq, Repr

/-- The mutable fields of `ULive2DCubismAvatarComponent`
(Live2DCubismAvatarComponent.h:37-50): the model object, the render target and
the dynamic material, each a nullable engine-object pointer. -/
structure ComponentState where
  Live2DModel : Option UObjectPlaceholder
  RenderTarget : Option TexturePlaceholder
  DynamicMaterial : Option MaterialPlaceholder
deriving DecidableEq, Repr

/-- A freshly constructed component: all `UPROPERTY(Transient)` pointers are
null. -/
def initialComponent : ComponentState :=
  { Live2DModel := none, RenderTarget := none, DynamicMaterial := none }

/-- Outcome of the two file-system calls made by `LoadLive2DModel`:
whether `FPaths::FileExists(ModelPath)` returns true, and the byte array
produced by `FFileHelper::LoadFileToArray` (`none` if that call fails). -/
structure FileSystem where
  fileExists : Bool
  readResult : Option (List Nat)
deriving DecidableEq, Repr

/-- `ULive2DCubismAvatarComponent::TickComponent`
(Live2DCubismAvatarComponent.cpp:17-22): calls the superclass tick and does
nothing else; its only log statement is commented out, so no log entry is
produced.  The component state is untouched in every state, loaded or not. -/
def TickComponent (s : ComponentState) (DeltaTime : ℚ) :
    ComponentState × List LogEntry :=
  (s, [])

/-- `ULive2DCubismAvatarComponent::LoadLive2DModel`
(Live2DCubismAvatarComponent.cpp:24-50): if the file does not exist, log an
error and return; if reading the file into a byte array fails, log an error
and return; otherwise log the placeholder message and install
`NewObject<UObject>()` as the model.  The loaded bytes are never inspected:
no magic-header check, no parsing, no validation of any kind. -/
def LoadLive2DModel (s : ComponentState) (fs : FileSystem) (ModelPath : String) :
    ComponentState × List LogEntry :=
  if ¬ fs.fileExists then
    (s, [⟨LogVerbosity.Error, "Model file not found: " ++ ModelPath⟩])
  else
    match fs.readResult with
    | none =>
        (s, [⟨LogVerbosity.Error, "Failed to load model file: " ++ ModelPath⟩])
    | some _ModelData =>
        ({ s with Live2DModel := some UObjectPlaceholder.mk },
         [⟨LogVerbosity.Log, "Live2D model created from data (Placeholder)"⟩])

/-- `ULive2DCubismAvatarComponent::SetParameterValue`
(Live2DCubismAvatarComponent.cpp:52-58): tests whether `Live2DModel` is
non-null, but both branches do nothing (the log inside the branch is commented
out).  No field is written and nothing is logged; the function cannot fail. -/
def SetParameterValue (s : ComponentState) (ParameterName : String) (Value : ℚ) :
    ComponentState × List LogEntry :=
  if s.Live2DModel.isSome then (s, []) else (s, [])

/-- `ULive2DCubismAvatarComponent::GetParameterValue`
(Live2DCubismAvatarComponent.cpp:60-69): returns the placeholder constant
0.5 when `Live2DModel` is non-null and 0.0 otherwise, for every parameter
name; the function is `const`, total, and cannot fail. -/
def GetParameterValue (s : ComponentState) (ParameterName : String) : ℚ :=
  if s.Live2DModel.isSome then 1/2 else 0

/-- A call made to the component between loads: a tick or a parameter write
(the two public mutators besides `LoadLive2DModel`). -/
inductive ComponentOp
  | tickOp (DeltaTime : ℚ)
  | setOp (ParameterName : String) (Value : ℚ)
deriving DecidableEq, Repr

/-- State after performing one `ComponentOp` (the log output is discarded). -/
def applyOp (s : ComponentState) (op : ComponentOp) : ComponentState :=
  match op with
  | ComponentOp.tickOp d => (TickComponent s d).fst
  | ComponentOp.setOp n v => (SetParameterValue s n v).fst

theorem SetParameterValue_eq (s : ComponentState) (n : String) (v : ℚ) :
    SetParameterValue s n v = (s, []) := by
  unfold SetParameterValue
  split <;> rfl

theorem applyOp_eq (s : ComponentState) (op : ComponentOp) :
    applyOp s op = s := by
  cases op with
  | tickOp d => rfl
  | setOp n v =>
      simp [applyOp, SetParameterValue_eq]

theorem foldl_applyOp_eq (s : ComponentState) (ops : List ComponentOp) :
    ops.foldl applyOp s = s := by
  induction ops generalizing s with
  | nil => rfl
  | cons op rest ih =>
      simp [List.foldl_cons, applyOp_eq, ih]

/-!
## Spec-modelled parameter table

`reset()` (spec §4.2) has no counterpart anywhere under src/: the claim about
it is settled against a model built from the spec's words.
-/

/-- Modelled from the spec: a `ParameterDefinition` of the ModelAsset (§3),
`{name, min, max, default}`.  Nothing in src/ declares parameters. -/
structure ParameterDefinition where
  name : String
  min : ℚ
  max : ℚ
  default : ℚ
deriving DecidableEq, Repr

/-- Modelled from the spec: the error surfaced by `set`/`get` on an undeclared
name (§4.2, §7).  Nothing in src/ defines a parameter error. -/
inductive ParameterError
  | Unknown
deriving DecidableEq, Repr

/-- Modelled from the spec: the mutable `ParameterTable` (§3), a named-value
store keyed to the ModelAsset's parameter definitions; each entry pairs a
declared definition with its current value.  Nothing in src/ holds parameter
state. -/
def ParameterTable : Type :=
  List (ParameterDefinition × ℚ)

/-- Clamp `v` into `[lo, hi]`. -/
def clampValue (lo hi v : ℚ) : ℚ :=
  Max.max lo (Min.min hi v)

/-- Modelled from the spec: the table a freshly loaded model starts with —
every declared parameter holds its declared default (§3, §4.2). -/
def initTable (defs : List ParameterDefinition) : ParameterTable :=
  defs.map (fun d => (d, d.default))

/-- Modelled from the spec: `set(name, value)` clamps the value into the
matching definition's `[min,max]` and fails with `ParameterError::Unknown`,
leaving the table unchanged, if the name is undeclared (§4.2). -/
def tableSet (t : ParameterTable) (n : String) (v : ℚ) :
    Except ParameterError ParameterTable :=
  if t.any (fun e => e.fst.name = n) then
    Except.ok (t.map (fun e =>
      if e.fst.name = n then (e.fst, clampValue e.fst.min e.fst.max v) else e))
  else
    Except.error ParameterError.Unknown

/-- Modelled from the spec: `get(name)` returns the current value or fails
with `ParameterError::Unknown` (§4.2). -/
def tableGet (t : ParameterTable) (n : String) : Except ParameterError ℚ :=
  match t.find? (fun e => e.fst.name = n) with
  | some e => Except.ok e.snd
  | none => Except.error ParameterError.Unknown

/-- Modelled from the spec: `reset()` restores all values to their declared
defaults (§4.2). -/
def tableReset (t : ParameterTable) : ParameterTable :=
  t.map (fun e => (e.fst, e.fst.default))

/-- One external `set` call folded over the table; a failing `set` leaves the
table unchanged (§7: table state unchanged on error). -/
def applyTableSet (t : ParameterTable) (p : String × ℚ) : ParameterTable :=
  match tableSet t p.fst p.snd with
  | Except.ok t2 => t2
  | Except.error _ => t

theorem applyTableSet_map_fst (t : ParameterTable) (p : String × ℚ) :
    (applyTableSet t p).map Prod.fst = t.map Prod.fst := by
  by_cases hc : t.any (fun e => e.fst.name = p.fst) = true
  · have hs : applyTableSet t p = t.map (fun e =>
        if e.fst.name = p.fst then
          (e.fst, clampValue e.fst.min e.fst.max p.snd)
        else e) := by
      unfold applyTableSet tableSet
      rw [if_pos hc]
    rw [hs, List.map_map]
    refine List.map_congr_left ?_
    intro e _
    by_cases h : e.fst.name = p.fst <;> simp [Function.comp, h]
  · have hs : applyTableSet t p = t := by
      unfold applyTableSet tableSet
      rw [if_neg hc]
    rw [hs]

theorem foldl_applyTableSet_map_fst (t : ParameterTable)
    (ops : List (String × ℚ)) :
    (ops.foldl applyTableSet t).map Prod.fst = t.map Prod.fst := by
  induction ops generalizing t with
  | nil => rfl
  | cons p rest ih =>
      rw [List.foldl_cons, ih, applyTableSet_map_fst]

theorem tableReset_eq_initTable_map_fst (t : ParameterTable) :
    tableReset t = initTable (t.map Prod.fst) := by
  unfold tableReset initTable
  rw [List.map_map]
  rfl

theorem initTable_map_fst (defs : List ParameterDefinition) :
    (initTable defs).map Prod.fst = defs := by
  unfold initTable
  rw [List.map_map]
  exact List.map_id defs

/-!
## Claims
-/

/-- Bytes of a model file used in the concrete load scenarios; the loader
never inspects them. -/
def modelFileBytes : List Nat := [77, 79, 67, 51, 0, 0, 0, 1]

/-- The component after a successful `LoadLive2DModel` call (file exists and
is readable). -/
def loadedComponent : ComponentState :=
  (LoadLive2DModel initialComponent ⟨true, some modelFileBytes⟩
    "Model/angleX.model3.json").fst

theorem loadedComponent_model :
    loadedComponent.Live2DModel = some UObjectPlaceholder.mk := rfl

/-- Claim C1, counterexample: after loading a model file (which in the source
cannot declare any parameter, since the bytes are never parsed), calling
SetParameterValue("angleX", 45) and then GetParameterValue("angleX") returns
the placeholder 0.5, not the clamped bound 30 the claim requires. -/
theorem C1_counterexample :
    GetParameterValue (SetParameterValue loadedComponent "angleX" 45).fst
        "angleX" = 1/2 ∧
    GetParameterValue (SetParameterValue loadedComponent "angleX" 45).fst
        "angleX" ≠ 30 := by
  have h : GetParameterValue (SetParameterValue loadedComponent "angleX" 45).fst
      "angleX" = 1/2 := rfl
  refine ⟨h, ?_⟩
  rw [h]
  norm_num

/-- Claim C1 (amended): no clamping or storage is implemented.  Whenever a
model object is held, SetParameterValue with any name and value is a no-op,
and a following GetParameterValue returns the placeholder 0.5 for every name
— in particular set("angleX", 45) then get("angleX") returns 0.5, not 30. -/
theorem C1_amended (m : UObjectPlaceholder) (rt : Option TexturePlaceholder)
    (dm : Option MaterialPlaceholder) (v : ℚ) (n n2 : String) :
    (SetParameterValue ⟨some m, rt, dm⟩ n v).fst = ⟨some m, rt, dm⟩ ∧
    GetParameterValue (SetParameterValue ⟨some m, rt, dm⟩ n v).fst n2 = 1/2 := by
  rw [SetParameterValue_eq]
  exact ⟨rfl, rfl⟩

/-- Claim C2, counterexample: with a model loaded, SetParameterValue on the
undeclared name "missingParam" does not fail — it returns normally, changes
nothing and logs nothing — and GetParameterValue on that name does not fail
either: it returns the ordinary placeholder value 0.5.  No
ParameterError::Unknown (or any error path) exists in the source. -/
theorem C2_counterexample :
    SetParameterValue loadedComponent "missingParam" 1 = (loadedComponent, []) ∧
    GetParameterValue loadedComponent "missingParam" = 1/2 := by
  exact ⟨SetParameterValue_eq loadedComponent "missingParam" 1, rfl⟩

/-- Claim C2 (amended): set and get never fail, for declared and undeclared
names alike.  SetParameterValue always returns with the component unchanged
and no log output, and GetParameterValue returns the same value for every
name queried (so no name is distinguished as unknown). -/
theorem C2_amended (s : ComponentState) (n n2 : String) (v : ℚ) :
    SetParameterValue s n v = (s, []) ∧
    GetParameterValue s n = GetParameterValue s n2 := by
  exact ⟨SetParameterValue_eq s n v, rfl⟩

/-- Bytes that lack any magic header (the source never defines one, and
never checks the bytes at all). -/
def noMagicBytes : List Nat := [0, 0, 0, 0]

/-- Claim C3, counterexample: loading a readable file whose bytes lack any
magic header succeeds and installs the placeholder model object — the
controller does not remain in the unloaded state and no BadMagic failure
occurs. -/
theorem C3_counterexample :
    (LoadLive2DModel initialComponent ⟨true, some noMagicBytes⟩
        "bad.moc3").fst.Live2DModel = some UObjectPlaceholder.mk := rfl

/-- Claim C3 (amended): LoadLive2DModel never inspects the bytes, so every
readable byte sequence — with or without a magic header — installs the
placeholder model; the model reference is left unchanged exactly when the
file does not exist or cannot be read. -/
theorem C3_amended (s : ComponentState) (p : String) (b : List Nat)
    (r : Option (List Nat)) :
    (LoadLive2DModel s ⟨true, some b⟩ p).fst.Live2DModel
        = some UObjectPlaceholder.mk ∧
    (LoadLive2DModel s ⟨false, r⟩ p).fst = s ∧
    (LoadLive2DModel s ⟨true, none⟩ p).fst = s := by
  exact ⟨rfl, rfl, rfl⟩

/-- Claim C4: load is all-or-nothing.  For every prior state, file-system
outcome and path, LoadLive2DModel either installs the complete model object
it constructs, or returns with the component — in particular the previously
held model reference — entirely unchanged; no third, partial outcome
exists. -/
theorem C4_load_all_or_nothing (s : ComponentState) (fs : FileSystem)
    (p : String) :
    (LoadLive2DModel s fs p).fst
        = { s with Live2DModel := some UObjectPlaceholder.mk } ∨
    (LoadLive2DModel s fs p).fst = s := by
  unfold LoadLive2DModel
  by_cases h : fs.fileExists = true
  · cases hr : fs.readResult with
    | none => right; simp [h, hr]
    | some b => left; simp [h, hr]
  · right; simp [h]

/-- Claim C5: evaluation through the public interface is deterministic.
All component operations are pure functions of the state; across any
sequence of tick and set calls, a read of any parameter returns exactly the
value it returned before the sequence, so repeated reads of the same state
give identical results. -/
theorem C5_deterministic_reads (s : ComponentState) (ops : List ComponentOp)
    (n : String) :
    GetParameterValue (ops.foldl applyOp s) n = GetParameterValue s n := by
  rw [foldl_applyOp_eq]

/-- Claim C6, counterexample: ticking the freshly constructed (unloaded)
component leaves the state unchanged and emits no log output at all — in
particular no warning is reported, contrary to the claim. -/
theorem C6_counterexample :
    (TickComponent initialComponent (16/1000)).fst = initialComponent ∧
    (TickComponent initialComponent (16/1000)).snd = [] := by
  exact ⟨rfl, rfl⟩

/-- Claim C6 (amended): TickComponent is a total no-op in every state, loaded
or not: it never crashes, performs no evaluation, changes no field, and
emits no warning or any other log entry. -/
theorem C6_amended (s : ComponentState) (d : ℚ) :
    (TickComponent s d).fst = s ∧ (TickComponent s d).snd = [] := by
  exact ⟨rfl, rfl⟩

/-- Bytes one may read as encoding a two-node deformer cycle; the loader
never parses them, so their content is irrelevant to its behaviour. -/
def cyclicModelBytes : List Nat := [77, 79, 67, 51, 2, 0, 1, 1, 0]

/-- Claim C7, counterexample: a readable model file whose bytes would encode
a cyclic deformer graph loads successfully and installs the placeholder
model — load does not fail and a model object is constructed, contrary to
the claim. -/
theorem C7_counterexample :
    (LoadLive2DModel initialComponent ⟨true, some cyclicModelBytes⟩
        "cyclic.moc3").fst.Live2DModel = some UObjectPlaceholder.mk := rfl

/-- Claim C7 (amended): no reference integrity is established at load time.
LoadLive2DModel is entirely independent of the byte content — two readable
files with different bytes produce identical results — and every readable
file installs the placeholder model, so no dangling reference or cycle can
ever make a load fail. -/
theorem C7_amended (s : ComponentState) (p : String) (b b2 : List Nat) :
    LoadLive2DModel s ⟨true, some b⟩ p = LoadLive2DModel s ⟨true, some b2⟩ p ∧
    (LoadLive2DModel s ⟨true, some b⟩ p).fst.Live2DModel
        = some UObjectPlaceholder.mk := by
  exact ⟨rfl, rfl⟩

/-- Claim C8 (settled against the spec-modelled parameter table, since
reset() has no counterpart in src/): starting from a freshly loaded table and
applying any sequence of set calls — clamped on success, rejected with
Unknown on undeclared names — a reset restores the table exactly to its
initial state, every declared parameter at its declared default. -/
theorem C8_reset_restores_defaults (defs : List ParameterDefinition)
    (ops : List (String × ℚ)) :
    tableReset (ops.foldl applyTableSet (initTable defs)) = initTable defs := by
  rw [tableReset_eq_initTable_map_fst, foldl_applyTableSet_map_fst,
    initTable_map_fst]

/-- Claim C9: GetParameterValue returns exactly 0.5 whenever a model object
is held and exactly 0.0 whenever none is, for every name queried and
regardless of any prior sequence of SetParameterValue calls. -/
theorem C9_get_is_placeholder (s : ComponentState)
    (prior : List (String × ℚ)) (n : String) :
    GetParameterValue
        (prior.foldl (fun st q => (SetParameterValue st q.fst q.snd).fst) s) n
      = (if s.Live2DModel.isSome then 1/2 else 0) := by
  have h : prior.foldl (fun st q => (SetParameterValue st q.fst q.snd).fst) s
      = s := by
    induction prior generalizing s with
    | nil => rfl
    | cons q rest ih => simp [SetParameterValue_eq, ih]
  rw [h]
  rfl

/-- Claim C10: SetParameterValue has no observable effect in any state.  It
returns the component unchanged with no log output, and every subsequent
GetParameterValue — for any name — returns the same result as before the
call. -/
theorem C10_set_is_noop (s : ComponentState) (n : String) (v : ℚ) :
    (SetParameterValue s n v) = (s, []) ∧
    (∀ n2, GetParameterValue (SetParameterValue s n v).fst n2
        = GetParameterValue s n2) := by
  refine ⟨SetParameterValue_eq s n v, fun n2 => ?_⟩
  rw [SetParameterValue_eq]
